import Mathlib

/-!
Shallow embedding of the `semantic-release-kandji` repository
(`src/kandji-client.js`, `src/semantic-release-kandji.js`, and the
release-plugin lifecycle file) in Lean 4, together with theorems
settling the specification claims.

Network effects are modelled by explicit event traces and by oracles
(functions supplying the outcome of each HTTP call); everything else is
translated directly from the JavaScript source.
-/

namespace Kandji

/-- Substring test on lists of characters: does `needle` occur
contiguously inside `hay`?  Models JavaScript `String.prototype.includes`. -/
def listLeadMatch : List Char → List Char → Bool
  | [], _ => true
  | _ :: _, [] => false
  | a :: as, b :: bs => a == b && listLeadMatch as bs

/-- Does `needle` occur contiguously anywhere in `hay`? -/
def listFindSub (needle : List Char) : List Char → Bool
  | [] => listLeadMatch needle []
  | c :: t => listLeadMatch needle (c :: t) || listFindSub needle t

/-- `strContains hay needle` models JavaScript `hay.includes(needle)`. -/
def strContains (hay needle : String) : Bool :=
  listFindSub needle.data hay.data

/-- An HTTP error response as inspected by `updateCustomApp`:
`error.response.status` and `error.response.data?.detail`
(the latter may be absent, hence `Option`). -/
structure Resp where
  status : Nat
  detail : Option String
deriving DecidableEq, Repr

/-- A thrown axios error: `error.response` may be absent
(network-level failure). -/
structure ErrInfo where
  response : Option Resp
deriving DecidableEq, Repr

/-- The retry condition of `updateCustomApp` (kandji-client.js:170-174):
`error.response && error.response.status === 503 &&
 error.response.data?.detail?.includes("still being processed")`. -/
def isTransient (e : ErrInfo) : Bool :=
  match e.response with
  | none => false
  | some r =>
      r.status == 503 &&
      (match r.detail with
       | none => false
       | some d => strContains d "still being processed")

/-- Outcome of one PATCH attach attempt, supplied by the backend oracle. -/
inductive AttachResult where
  | ok (data : String)
  | err (e : ErrInfo)
deriving DecidableEq, Repr

/-- Observable effects of the client, recorded as a trace. -/
inductive Event where
  | signedUrlReq (filename : String)
  | s3Post (url : String)
  | patchApp (endpoint : String) (fileKey : String)
  | delay (ms : Nat)
  | patchScript (endpoint : String) (script : String)
deriving DecidableEq, Repr

/-- Result of `updateCustomApp`. -/
inductive UpdResult where
  | success (data : String)
  | timeoutErr (msg : String)
  | apiErr (e : ErrInfo)
deriving DecidableEq, Repr

/-- `maxAttempts` constant of `updateCustomApp` (kandji-client.js:150). -/
def maxAttempts : Nat := 10

/-- `timeoutDuration` constant of `updateCustomApp` (kandji-client.js:151). -/
def timeoutDuration : Nat := 5000

/-- The message of the convergence-timeout error (kandji-client.js:157-159). -/
def timeoutMsg : String := "Unable to verify updated app after 10 attempts. Exiting"

/-- Structurally recursive runner for the attach loop.  `gas` is the
number of entries still allowed by the bound check `attempt > maxAttempts`:
the wrapper `updateCustomApp` passes `maxAttempts + 1 - attempt`, so
`gas = 0` exactly when `attempt > maxAttempts`.  Returns the trace of
events together with the result. -/
def updateRun (oracle : Nat → AttachResult) (appId fileKey : String) :
    Nat → Nat → List Event × UpdResult
  | _attempt, 0 => ([], .timeoutErr timeoutMsg)
  | attempt, gas + 1 =>
      let endpoint := "/api/v1/library/custom-apps/" ++ appId
      match oracle attempt with
      | .ok d => ([.patchApp endpoint fileKey], .success d)
      | .err e =>
          if isTransient e then
            let rest := updateRun oracle appId fileKey (attempt + 1) gas
            (.patchApp endpoint fileKey :: .delay timeoutDuration :: rest.1, rest.2)
          else
            ([.patchApp endpoint fileKey], .apiErr e)

/-- `updateCustomApp(appId, fileKey, attempt)` (kandji-client.js:149-186).
The oracle gives the backend's response to the PATCH issued at each
attempt number. -/
def updateCustomApp (oracle : Nat → AttachResult) (appId fileKey : String)
    (attempt : Nat) : List Event × UpdResult :=
  updateRun oracle appId fileKey attempt (maxAttempts + 1 - attempt)

/-- The wrapper satisfies exactly the recursion of the source code:
throw the timeout error when `attempt > maxAttempts`; otherwise PATCH,
return on success, on a transient error wait and recurse with
`attempt + 1`, and on any other error rethrow. -/
theorem updateCustomApp_unfold (oracle : Nat → AttachResult)
    (appId fileKey : String) (attempt : Nat) :
    updateCustomApp oracle appId fileKey attempt =
      if attempt > maxAttempts then
        ([], .timeoutErr timeoutMsg)
      else
        let endpoint := "/api/v1/library/custom-apps/" ++ appId
        match oracle attempt with
        | .ok d => ([.patchApp endpoint fileKey], .success d)
        | .err e =>
            if isTransient e then
              let rest := updateCustomApp oracle appId fileKey (attempt + 1)
              (.patchApp endpoint fileKey :: .delay timeoutDuration :: rest.1, rest.2)
            else
              ([.patchApp endpoint fileKey], .apiErr e) := by
  unfold updateCustomApp
  by_cases h : attempt > maxAttempts
  · have hz : maxAttempts + 1 - attempt = 0 := by omega
    rw [hz, if_pos h]
    rfl
  · have hs : maxAttempts + 1 - attempt = (maxAttempts - attempt) + 1 := by omega
    have hs2 : maxAttempts + 1 - (attempt + 1) = maxAttempts - attempt := by omega
    rw [hs, if_neg h, hs2]
    rfl

/-- The signed-URL data returned by
`POST /api/v1/library/custom-apps/upload` (kandji-client.js:86-98):
destination URL, server-assigned file key, and the ordered mapping of
additional POST fields.  `post_data` is kept as an ordered association
list, matching `Object.entries` iteration order. -/
structure SignedUrl where
  post_url : String
  file_key : String
  post_data : List (String × String)
deriving DecidableEq, Repr

/-- One part of the multipart form body built by `uploadToS3`. -/
inductive FormPart where
  | field (name value : String)
  | file (path : String)
deriving DecidableEq, Repr

/-- The multipart body construction of `uploadToS3`
(kandji-client.js:110-118): append `key = file_key` first, then every
entry of `post_data` whose key is not `"key"`, then the file stream. -/
def buildS3Form (filepath : String) (signedUrl : SignedUrl) : List FormPart :=
  FormPart.field "key" signedUrl.file_key ::
    ((signedUrl.post_data.filter (fun kv => kv.1 != "key")).map
      (fun kv => FormPart.field kv.1 kv.2)
     ++ [FormPart.file filepath])

/-- Outcome of one network step supplied by its oracle
(success payload or thrown error). -/
inductive StepResult (α : Type) where
  | ok (v : α)
  | err (e : String)
deriving DecidableEq, Repr

/-- Result of `upload`. -/
inductive UploadOutcome where
  | ok (data : String)
  | signedUrlErr (e : String)
  | s3Err (e : String)
  | timeoutFail (msg : String)
  | apiFail (e : ErrInfo)
deriving DecidableEq, Repr

/-- Filename derivation of `upload` (kandji-client.js:202):
`filepath.split("/").pop()`. -/
def lastSegment (filepath : String) : String :=
  (filepath.splitOn "/").getLastD ""

/-- `upload(filepath, appId)` (kandji-client.js:193-211): request a signed
URL for the file's basename, push the file to S3, then run the attach
loop starting at attempt 0.  `signedRes` and `s3Res` are the oracles for
the first two network steps; `oracle` supplies the attach responses. -/
def upload (signedRes : StepResult SignedUrl) (s3Res : StepResult String)
    (oracle : Nat → AttachResult) (filepath appId : String) :
    List Event × UploadOutcome :=
  let filename := lastSegment filepath
  match signedRes with
  | .err e => ([.signedUrlReq filename], .signedUrlErr e)
  | .ok signedUrl =>
      match s3Res with
      | .err e => ([.signedUrlReq filename, .s3Post signedUrl.post_url], .s3Err e)
      | .ok _ =>
          let rest := updateCustomApp oracle appId signedUrl.file_key 0
          (.signedUrlReq filename :: .s3Post signedUrl.post_url :: rest.1,
           match rest.2 with
           | .success d => .ok d
           | .timeoutErr m => .timeoutFail m
           | .apiErr e => .apiFail e)

/-- JavaScript falsiness of an optional string: `undefined`, `null` and
`""` are falsy. -/
def jsFalsy : Option String → Bool
  | none => true
  | some s => s == ""

/-- The stored state of a constructed `KandjiClient`
(kandji-client.js:11-12). -/
structure KandjiClient where
  baseUrl : String
  apiToken : String
deriving DecidableEq, Repr

/-- `new KandjiClient(baseUrl, apiToken)` (kandji-client.js:7-14):
throws when either argument is falsy, otherwise stores both unchanged. -/
def mkKandjiClient (baseUrl apiToken : Option String) :
    Except String KandjiClient :=
  if jsFalsy baseUrl || jsFalsy apiToken then
    .error "Base URL and API token are required."
  else
    .ok ⟨baseUrl.getD "", apiToken.getD ""⟩

/-- The version-placeholder substitution of `resolveAsset`
(part_000:37-40): replace every occurrence of the literal
`$\x7bnextRelease.version\x7d` with the version string. -/
def replaceVersionPlaceholder (assetPattern version : String) : String :=
  assetPattern.replace "$\x7bnextRelease.version\x7d" version

/-- `resolveAsset(assetPattern, nextReleaseVersion)` (part_000:28-60).
`globSync` models `glob.sync`: the list of files matching a processed
pattern.  Fails when the version is falsy, when no file matches, or when
more than one file matches; otherwise returns the single match. -/
def resolveAsset (assetPattern : String) (nextReleaseVersion : Option String)
    (globSync : String → List String) : Except String String :=
  if jsFalsy nextReleaseVersion then
    .error "nextRelease.version is undefined. Cannot resolve asset path."
  else
    let processedPattern :=
      replaceVersionPlaceholder assetPattern (nextReleaseVersion.getD "")
    let matchedFiles := globSync processedPattern
    if matchedFiles.length == 0 then
      .error ("No files found for pattern: " ++ processedPattern)
    else if matchedFiles.length > 1 then
      .error ("Multiple files matched for pattern \"" ++ processedPattern
        ++ "\", but only one asset is allowed.")
    else
      .ok (matchedFiles.headD "")

/-- The skip condition of `publish` (part_000:90-94) and of
`kandjiSemanticReleasePlugin` (semantic-release-kandji.js:26-30):
`(!release && !preRelease) || (isPrerelease && !preRelease) ||
 (!isPrerelease && !release)`. -/
def shouldSkip (release preRelease isPrerelease : Bool) : Bool :=
  (!release && !preRelease) || (isPrerelease && !preRelease) ||
    (!isPrerelease && !release)

/-- Result of the `publish` lifecycle hook. -/
inductive PubResult where
  | skipped
  | ok
  | configErr (e : String)
  | assetErr (e : String)
  | uploadErr (e : UploadOutcome)
  | scriptPatchErr (e : String)
deriving DecidableEq, Repr

/-- `publish(pluginConfig, context)` (part_000:79-124).  Inputs mirror the
plugin config (`release` defaults true, `preRelease` defaults false,
`postinstallScript` defaults `[]`), the branch's prerelease flag, the
environment variables, and the oracles for each network step
(`patchScriptRes` for the final `postinstall_script` PATCH).  Returns the
trace of network events and the outcome. -/
def publish (baseUrl apiToken : Option String)
    (release preRelease isPrerelease : Bool)
    (appID assetPattern : String) (nextReleaseVersion : Option String)
    (globSync : String → List String)
    (signedRes : StepResult SignedUrl) (s3Res : StepResult String)
    (oracle : Nat → AttachResult)
    (postinstallScript : List String)
    (patchScriptRes : StepResult String) : List Event × PubResult :=
  if shouldSkip release preRelease isPrerelease then
    ([], .skipped)
  else
    match mkKandjiClient baseUrl apiToken with
    | .error e => ([], .configErr e)
    | .ok _client =>
        match resolveAsset assetPattern nextReleaseVersion globSync with
        | .error e => ([], .assetErr e)
        | .ok resolvedAsset =>
            let up := upload signedRes s3Res oracle resolvedAsset appID
            match up.2 with
            | .ok _ =>
                if postinstallScript.length > 0 then
                  let endpoint := "/api/v1/library/custom-apps/" ++ appID
                  let script := String.intercalate "\n" postinstallScript
                  match patchScriptRes with
                  | .ok _ => (up.1 ++ [.patchScript endpoint script], .ok)
                  | .err e =>
                      (up.1 ++ [.patchScript endpoint script], .scriptPatchErr e)
                else
                  (up.1, .ok)
            | failure => (up.1, .uploadErr failure)

/-- Number of PATCH attach attempts recorded in a trace. -/
def countPatch (evs : List Event) : Nat :=
  evs.countP (fun ev => match ev with
    | .patchApp _ _ => true
    | _ => false)

/-- Number of signed-URL requests recorded in a trace. -/
def countSigned (evs : List Event) : Nat :=
  evs.countP (fun ev => match ev with
    | .signedUrlReq _ => true
    | _ => false)

/-- Number of storage (S3) POSTs recorded in a trace. -/
def countS3 (evs : List Event) : Nat :=
  evs.countP (fun ev => match ev with
    | .s3Post _ => true
    | _ => false)

/-- Number of `postinstall_script` PATCH calls recorded in a trace. -/
def countScriptEv (evs : List Event) : Nat :=
  evs.countP (fun ev => match ev with
    | .patchScript _ _ => true
    | _ => false)

/-- Check that an event of the attach loop targets the fixed endpoint
with the fixed payload (or is the fixed 5-second delay). -/
def loopEventOk (appId fileKey : String) (ev : Event) : Bool :=
  match ev with
  | .patchApp ep fk =>
      ep == "/api/v1/library/custom-apps/" ++ appId && fk == fileKey
  | .delay ms => ms == timeoutDuration
  | _ => false

theorem updateRun_events_shape (oracle : Nat → AttachResult)
    (appId fileKey : String) :
    ∀ gas attempt,
      ((updateRun oracle appId fileKey attempt gas).1.all
        (loopEventOk appId fileKey)) = true := by
  intro gas
  induction gas with
  | zero => intro attempt; rfl
  | succ g ih =>
      intro attempt
      simp only [updateRun]
      cases h : oracle attempt with
      | ok d => simp [List.all, loopEventOk]
      | err e =>
          by_cases ht : isTransient e
          · simp [ht, List.all, loopEventOk, ih (attempt + 1)]
          · simp [ht, List.all, loopEventOk]

theorem updateRun_no_script (oracle : Nat → AttachResult)
    (appId fileKey : String) :
    ∀ gas attempt,
      countScriptEv (updateRun oracle appId fileKey attempt gas).1 = 0 := by
  intro gas
  induction gas with
  | zero => intro attempt; rfl
  | succ g ih =>
      intro attempt
      simp only [updateRun]
      cases h : oracle attempt with
      | ok d => rfl
      | err e =>
          by_cases ht : isTransient e
          · simp [ht, countScriptEv, List.countP_cons, ih (attempt + 1)]
            simp [countScriptEv] at ih
            exact ih (attempt + 1)
          · simp [ht]
            rfl

theorem updateRun_patch_le (oracle : Nat → AttachResult)
    (appId fileKey : String) :
    ∀ gas attempt,
      countPatch (updateRun oracle appId fileKey attempt gas).1 ≤ gas := by
  intro gas
  induction gas with
  | zero => intro attempt; exact Nat.le_refl 0
  | succ g ih =>
      intro attempt
      simp only [updateRun]
      cases h : oracle attempt with
      | ok d => simp [countPatch, List.countP_cons]
      | err e =>
          by_cases ht : isTransient e
          · simp only [ht, if_pos]
            simp [countPatch, List.countP_cons]
            have := ih (attempt + 1)
            simp only [countPatch] at this
            omega
          · simp [ht, countPatch, List.countP_cons]

theorem updateRun_success_char (oracle : Nat → AttachResult)
    (appId fileKey : String) :
    ∀ gas attempt d,
      (updateRun oracle appId fileKey attempt gas).2 = .success d →
      ∃ n, n < gas ∧ oracle (attempt + n) = .ok d ∧
        (∀ m, m < n → ∃ e, oracle (attempt + m) = .err e ∧
          isTransient e = true) ∧
        countPatch (updateRun oracle appId fileKey attempt gas).1 = n + 1 := by
  intro gas
  induction gas with
  | zero => intro attempt d h; exact absurd h (by simp [updateRun])
  | succ g ih =>
      intro attempt d h
      simp only [updateRun] at h ⊢
      cases ho : oracle attempt with
      | ok d0 =>
          simp only [ho] at h ⊢
          refine ⟨0, Nat.succ_pos g, ?_, ?_, ?_⟩
          · cases h; simpa using ho
          · intro m hm; omega
          · simp [countPatch, List.countP_cons]
      | err e =>
          simp only [ho] at h ⊢
          by_cases ht : isTransient e
          · simp only [ht, if_pos] at h ⊢
            obtain ⟨n, hn, hok, hpre, hcnt⟩ := ih (attempt + 1) d h
            refine ⟨n + 1, by omega, ?_, ?_, ?_⟩
            · have : attempt + (n + 1) = attempt + 1 + n := by omega
              rw [this]; exact hok
            · intro m hm
              cases m with
              | zero => exact ⟨e, by simpa using ho, ht⟩
              | succ m' =>
                  have : attempt + (m' + 1) = attempt + 1 + m' := by omega
                  rw [this]
                  exact hpre m' (by omega)
            · simp only [countPatch, List.countP_cons]
              simp only [countPatch] at hcnt
              simp [hcnt]
          · simp only [ht, if_neg, Bool.false_eq_true, not_false_iff] at h
            exact absurd h (by simp)

theorem updateRun_allTransient_timeout (oracle : Nat → AttachResult)
    (appId fileKey : String) :
    ∀ gas attempt,
      (∀ n, n < gas → ∃ e, oracle (attempt + n) = .err e ∧
        isTransient e = true) →
      (updateRun oracle appId fileKey attempt gas).2 =
        .timeoutErr timeoutMsg := by
  intro gas
  induction gas with
  | zero => intro attempt _; rfl
  | succ g ih =>
      intro attempt hall
      obtain ⟨e, he, ht⟩ := hall 0 (Nat.succ_pos g)
      simp only [Nat.add_zero] at he
      simp only [updateRun, he, ht, if_pos]
      refine ih (attempt + 1) ?_
      intro n hn
      have : attempt + 1 + n = attempt + (n + 1) := by omega
      rw [this]
      exact hall (n + 1) (by omega)

theorem updateRun_fail_after (oracle : Nat → AttachResult)
    (appId fileKey : String) :
    ∀ gas attempt e,
      (∀ n, n < gas → ∃ e', oracle (attempt + n) = .err e' ∧
        isTransient e' = true) →
      oracle (attempt + gas) = .err e → isTransient e = false →
      (updateRun oracle appId fileKey attempt (gas + 1)).2 = .apiErr e := by
  intro gas
  induction gas with
  | zero =>
      intro attempt e _ he ht
      simp only [Nat.add_zero] at he
      simp [updateRun, he, ht]
  | succ g ih =>
      intro attempt e hall he ht
      obtain ⟨e0, he0, ht0⟩ := hall 0 (Nat.succ_pos g)
      simp only [Nat.add_zero] at he0
      simp only [updateRun, he0, ht0, if_pos]
      refine ih (attempt + 1) e ?_ ?_ ht
      · intro n hn
        have : attempt + 1 + n = attempt + (n + 1) := by omega
        rw [this]
        exact hall (n + 1) (by omega)
      · have : attempt + 1 + g = attempt + (g + 1) := by omega
        rw [this]
        exact he

/-- Transient error fixture: HTTP 503 with a detail message containing
"still being processed". -/
def trErr : ErrInfo := ⟨some ⟨503, some "object is still being processed"⟩⟩

/-- Non-transient error fixture: HTTP 404 "resource not found". -/
def nfErr : ErrInfo := ⟨some ⟨404, some "resource not found"⟩⟩

/-- Oracle: transient 503 on attempts 0..9, then a 404 at attempt 10. -/
def tenThenNotFound : Nat → AttachResult := fun n =>
  if n < 10 then .err trErr else .err nfErr

/-- Oracle: transient 503 on attempts 0..9, then success at attempt 10. -/
def tenThenOk : Nat → AttachResult := fun n =>
  if n < 10 then .err trErr else .ok "updated"

/-- Oracle: every attempt reports the transient 503 condition. -/
def alwaysTransient : Nat → AttachResult := fun _ => .err trErr

/-- C1: when a PATCH attach attempt is actually issued (attempt number at
most `maxAttempts`) and fails, `updateCustomApp` retries if and only if
the failed response exists with status exactly 503 and a detail message
containing "still being processed"; each retry records the fixed
5-second delay and recurses with the attempt counter incremented, while
any other failure terminates immediately with the underlying error, with
no delay and no further attempt. -/
theorem attach_retry_iff (oracle : Nat → AttachResult)
    (appId fileKey : String) (attempt : Nat) (e : ErrInfo)
    (hle : attempt ≤ maxAttempts) (ho : oracle attempt = .err e) :
    (isTransient e = true ↔
      ∃ r, e.response = some r ∧ r.status = 503 ∧
        ∃ d, r.detail = some d ∧
          strContains d "still being processed" = true) ∧
    (isTransient e = true →
      updateCustomApp oracle appId fileKey attempt =
        (Event.patchApp ("/api/v1/library/custom-apps/" ++ appId) fileKey ::
          Event.delay timeoutDuration ::
          (updateCustomApp oracle appId fileKey (attempt + 1)).1,
         (updateCustomApp oracle appId fileKey (attempt + 1)).2)) ∧
    (isTransient e = false →
      updateCustomApp oracle appId fileKey attempt =
        ([Event.patchApp ("/api/v1/library/custom-apps/" ++ appId) fileKey],
         UpdResult.apiErr e)) := by
  refine ⟨?_, ?_, ?_⟩
  · unfold isTransient
    cases hr : e.response with
    | none => simp
    | some r =>
        cases hd : r.detail with
        | none => simp [hd]
        | some d => simp [hd]
  · intro ht
    rw [updateCustomApp_unfold]
    rw [if_neg (by omega)]
    simp only [ho, ht, if_pos]
  · intro ht
    rw [updateCustomApp_unfold]
    rw [if_neg (by omega)]
    simp only [ho, ht]
    simp

theorem attach_retry_iff_witness :
    (0 ≤ maxAttempts ∧ alwaysTransient 0 = .err trErr) ∧
    (isTransient trErr = true ↔
      ∃ r, trErr.response = some r ∧ r.status = 503 ∧
        ∃ d, r.detail = some d ∧
          strContains d "still being processed" = true) ∧
    (isTransient trErr = true →
      updateCustomApp alwaysTransient "1" "k" 0 =
        (Event.patchApp ("/api/v1/library/custom-apps/" ++ "1") "k" ::
          Event.delay timeoutDuration ::
          (updateCustomApp alwaysTransient "1" "k" (0 + 1)).1,
         (updateCustomApp alwaysTransient "1" "k" (0 + 1)).2)) ∧
    (isTransient trErr = false →
      updateCustomApp alwaysTransient "1" "k" 0 =
        ([Event.patchApp ("/api/v1/library/custom-apps/" ++ "1") "k"],
         UpdResult.apiErr trErr)) :=
  ⟨⟨by decide, rfl⟩,
   attach_retry_iff alwaysTransient "1" "k" 0 trErr (by decide) rfl⟩

/-- C2 counterexample: starting at attempt 0 against an oracle that is
transient for attempts 0..9 and returns a non-transient 404 at attempt
10, the execution makes 11 PATCH attempts and its 11th failure surfaces
the underlying 404 error, not the convergence-timeout error — refuting
"the 11th failure, regardless of cause, raises the
ConvergenceTimeoutError". -/
theorem attach_eleventh_failure_cex :
    (updateCustomApp tenThenNotFound "42" "fk" 0).2 = .apiErr nfErr ∧
    (updateCustomApp tenThenNotFound "42" "fk" 0).2 ≠
      .timeoutErr timeoutMsg ∧
    countPatch (updateCustomApp tenThenNotFound "42" "fk" 0).1 = 11 :=
  ⟨by decide, by decide, by rfl⟩

/-- C2 (amended): the Attach Loop makes at most 11 PATCH attempts
(10 retries) per execution starting at attempt 0; when all of attempts
0..10 fail with the transient 503 condition, the loop raises the
ConvergenceTimeoutError rather than the underlying error; but a
non-transient 11th failure (at attempt 10, after ten transient failures)
surfaces the underlying error, so from `Attempting(10)` only a transient
failure leads to `TimedOut` and any other failure leads to `Failed`. -/
theorem attach_bound_amended (oracle : Nat → AttachResult)
    (appId fileKey : String) :
    countPatch (updateCustomApp oracle appId fileKey 0).1 ≤ 11 ∧
    ((∀ n, n ≤ 10 → ∃ e, oracle n = .err e ∧ isTransient e = true) →
      (updateCustomApp oracle appId fileKey 0).2 =
        .timeoutErr timeoutMsg) ∧
    (∀ e, (∀ n, n < 10 → ∃ e', oracle n = .err e' ∧
        isTransient e' = true) →
      oracle 10 = .err e → isTransient e = false →
      (updateCustomApp oracle appId fileKey 0).2 = .apiErr e) := by
  refine ⟨?_, ?_, ?_⟩
  · have h := updateRun_patch_le oracle appId fileKey 11 0
    simpa [updateCustomApp, maxAttempts] using h
  · intro hall
    have h' : ∀ n, n < 11 → ∃ e, oracle (0 + n) = .err e ∧
        isTransient e = true := by
      intro n hn
      simpa using hall n (by omega)
    have h := updateRun_allTransient_timeout oracle appId fileKey 11 0 h'
    simpa [updateCustomApp, maxAttempts] using h
  · intro e hall he ht
    have h' : ∀ n, n < 10 → ∃ e', oracle (0 + n) = .err e' ∧
        isTransient e' = true := by
      intro n hn
      simpa using hall n hn
    have h := updateRun_fail_after oracle appId fileKey 10 0 e h'
      (by simpa using he) ht
    simpa [updateCustomApp, maxAttempts] using h

theorem attach_bound_amended_witness :
    (∀ n, n ≤ 10 → ∃ e, alwaysTransient n = .err e ∧
      isTransient e = true) ∧
    (updateCustomApp alwaysTransient "1" "k" 0).2 =
      .timeoutErr timeoutMsg :=
  ⟨fun _ _ => ⟨trErr, rfl, by decide⟩,
   (attach_bound_amended alwaysTransient "1" "k").2.1
     (fun _ _ => ⟨trErr, rfl, by decide⟩)⟩

/-- C9: every event of one Attach Loop execution is either the fixed
5-second delay or a PATCH of `/api/v1/library/custom-apps/{appId}` with
the original `fileKey` — the retry recursion passes `appId` and
`fileKey` unchanged, so only the attempt counter changes between
attempts. -/
theorem attach_payload_uniform (oracle : Nat → AttachResult)
    (appId fileKey : String) (attempt : Nat) :
    ((updateCustomApp oracle appId fileKey attempt).1.all
      (loopEventOk appId fileKey)) = true :=
  updateRun_events_shape oracle appId fileKey _ attempt

/-- C10: constructing a `KandjiClient` with a missing or empty base URL
or API token throws "Base URL and API token are required." (and in the
plugin flow produces no network events); with both non-empty the
constructor succeeds and stores both values unchanged. -/
theorem client_ctor_spec (baseUrl apiToken : Option String) :
    ((jsFalsy baseUrl || jsFalsy apiToken) = true →
      mkKandjiClient baseUrl apiToken =
        .error "Base URL and API token are required.") ∧
    (∀ b t, baseUrl = some b → apiToken = some t →
      (b == "") = false → (t == "") = false →
      mkKandjiClient baseUrl apiToken = .ok ⟨b, t⟩) ∧
    (∀ e (release preRelease isPrerelease : Bool)
       (appID assetPattern : String) (version : Option String)
       (globSync : String → List String)
       (signedRes : StepResult SignedUrl) (s3Res : StepResult String)
       (oracle : Nat → AttachResult) (script : List String)
       (patchRes : StepResult String),
      mkKandjiClient baseUrl apiToken = .error e →
      (publish baseUrl apiToken release preRelease isPrerelease appID
        assetPattern version globSync signedRes s3Res oracle script
        patchRes).1 = []) := by
  refine ⟨?_, ?_, ?_⟩
  · intro h
    unfold mkKandjiClient
    rw [if_pos h]
  · intro b t hb ht hbne htne
    subst hb; subst ht
    unfold mkKandjiClient
    rw [if_neg (by simp [jsFalsy, hbne, htne])]
    rfl
  · intro e release preRelease isPrerelease appID assetPattern version
      globSync signedRes s3Res oracle script patchRes hmk
    by_cases hs : shouldSkip release preRelease isPrerelease
    · simp [publish, hs]
    · simp [publish, hs, hmk]

theorem client_ctor_spec_witness :
    ((jsFalsy none || jsFalsy (some "t")) = true ∧
      mkKandjiClient none (some "t") =
        .error "Base URL and API token are required.") ∧
    mkKandjiClient (some "https://x.api.kandji.io") (some "tok") =
      .ok ⟨"https://x.api.kandji.io", "tok"⟩ :=
  ⟨⟨by decide, (client_ctor_spec none (some "t")).1 (by decide)⟩,
   (client_ctor_spec (some "https://x.api.kandji.io") (some "tok")).2.1
     "https://x.api.kandji.io" "tok" rfl rfl (by decide) (by decide)⟩

/-- Number of multipart fields bearing a given name. -/
def countFieldNamed (n : String) (parts : List FormPart) : Nat :=
  parts.countP (fun p => match p with
    | .field m _ => m == n
    | _ => false)

/-- C4: the multipart body built by `uploadToS3` contains the file-key
field exactly once and in first position, followed by every `post_data`
entry except any named "key", followed by the file content — even when
`post_data` itself contains a "key" entry. -/
theorem s3form_key_once (filepath : String) (s : SignedUrl) :
    countFieldNamed "key" (buildS3Form filepath s) = 1 ∧
    (buildS3Form filepath s).headD (.file "") =
      FormPart.field "key" s.file_key ∧
    buildS3Form filepath s =
      FormPart.field "key" s.file_key ::
        ((s.post_data.filter (fun kv => kv.1 != "key")).map
          (fun kv => FormPart.field kv.1 kv.2)
         ++ [FormPart.file filepath]) := by
  refine ⟨?_, rfl, rfl⟩
  have hz : List.countP
      (fun p => match p with
        | FormPart.field m _ => m == "key"
        | _ => false)
      ((s.post_data.filter (fun kv => kv.1 != "key")).map
        (fun kv => FormPart.field kv.1 kv.2)) = 0 := by
    rw [List.countP_eq_zero]
    intro p hp
    obtain ⟨kv, hkv, hpe⟩ := List.mem_map.mp hp
    have h2 := (List.mem_filter.mp hkv).2
    subst hpe
    simpa using h2
  simp [countFieldNamed, buildS3Form, List.countP_cons, List.countP_append, hz]

/-- C5: when the storage push fails, `upload` surfaces exactly that
error after the single signed-URL request and the single storage POST:
it records no PATCH attach event at all (the remote resource is never
mutated) and does not retry the push. -/
theorem s3fail_no_attach (signedUrl : SignedUrl) (e : String)
    (oracle : Nat → AttachResult) (filepath appId : String) :
    upload (.ok signedUrl) (.err e) oracle filepath appId =
      ([.signedUrlReq (lastSegment filepath), .s3Post signedUrl.post_url],
       .s3Err e) ∧
    countPatch (upload (.ok signedUrl) (.err e) oracle
      filepath appId).1 = 0 ∧
    countS3 (upload (.ok signedUrl) (.err e) oracle filepath appId).1 = 1 :=
  ⟨rfl, rfl, rfl⟩

/-- Any count that is zero on every attach-loop event is zero on the
whole attach-loop trace. -/
theorem loop_trace_countP_zero (oracle : Nat → AttachResult)
    (appId fileKey : String) (q : Event → Bool)
    (hq : ∀ ev, loopEventOk appId fileKey ev = true → q ev = false) :
    ∀ gas attempt,
      List.countP q (updateRun oracle appId fileKey attempt gas).1 = 0 := by
  intro gas attempt
  rw [List.countP_eq_zero]
  intro ev hev
  have hall := updateRun_events_shape oracle appId fileKey gas attempt
  rw [List.all_eq_true] at hall
  simp [hq ev (hall ev hev)]

/-- Signed-URL fixture modelled on the spec's end-to-end scenario. -/
def su0 : SignedUrl := ⟨"https://s3/x", "k1", [("policy", "p")]⟩

/-- C3 counterexample: a successful `upload` against an oracle that is
transient on attempts 0..9 and succeeds at attempt 10 performs 11 PATCH
attach attempts, refuting "between 1 and 10 attach attempts". -/
theorem upload_eleven_attempts_cex :
    (upload (.ok su0) (.ok "s3ok") tenThenOk "/tmp/build.zip"
      "app-123").2 = .ok "updated" ∧
    countPatch (upload (.ok su0) (.ok "s3ok") tenThenOk "/tmp/build.zip"
      "app-123").1 = 11 :=
  ⟨by decide, by rfl⟩

/-- C3 (amended): every successful `upload` performs exactly one
signed-target request, then exactly one storage push, then between 1 and
11 attach attempts, in that fixed order, terminating on the first
successful attach response (all earlier attach responses being the
transient 503 condition). -/
theorem upload_order_amended (signedRes : StepResult SignedUrl)
    (s3Res : StepResult String) (oracle : Nat → AttachResult)
    (filepath appId d : String)
    (h : (upload signedRes s3Res oracle filepath appId).2 = .ok d) :
    ∃ su, signedRes = .ok su ∧
      (∃ r, s3Res = .ok r) ∧
      (upload signedRes s3Res oracle filepath appId).1 =
        Event.signedUrlReq (lastSegment filepath) ::
        Event.s3Post su.post_url ::
        (updateCustomApp oracle appId su.file_key 0).1 ∧
      countSigned (upload signedRes s3Res oracle filepath appId).1 = 1 ∧
      countS3 (upload signedRes s3Res oracle filepath appId).1 = 1 ∧
      ∃ n, n ≤ 10 ∧ oracle n = .ok d ∧
        (∀ m, m < n → ∃ e, oracle m = .err e ∧ isTransient e = true) ∧
        countPatch (upload signedRes s3Res oracle filepath appId).1 =
          n + 1 := by
  cases signedRes with
  | err e => exact absurd h (by simp [upload])
  | ok su =>
      cases s3Res with
      | err e => exact absurd h (by simp [upload])
      | ok r =>
          have hres : (updateCustomApp oracle appId su.file_key 0).2 =
              .success d := by
            simp only [upload] at h
            cases hu : (updateCustomApp oracle appId su.file_key 0).2 with
            | success d0 => rw [hu] at h; cases h; rfl
            | timeoutErr m => rw [hu] at h; cases h
            | apiErr e0 => rw [hu] at h; cases h
          have hchar := updateRun_success_char oracle appId su.file_key
            (maxAttempts + 1) 0 d (by simpa [updateCustomApp] using hres)
          obtain ⟨n, hn, hok, hpre, hcnt⟩ := hchar
          have hzeroS : List.countP (fun ev => match ev with
              | Event.signedUrlReq _ => true
              | _ => false)
              (updateRun oracle appId su.file_key 0
                (maxAttempts + 1)).1 = 0 := by
            refine loop_trace_countP_zero oracle appId su.file_key _ ?_
              (maxAttempts + 1) 0
            intro ev hev
            cases ev <;> simp_all [loopEventOk]
          have hzero3 : List.countP (fun ev => match ev with
              | Event.s3Post _ => true
              | _ => false)
              (updateRun oracle appId su.file_key 0
                (maxAttempts + 1)).1 = 0 := by
            refine loop_trace_countP_zero oracle appId su.file_key _ ?_
              (maxAttempts + 1) 0
            intro ev hev
            cases ev <;> simp_all [loopEventOk]
          refine ⟨su, rfl, ⟨r, rfl⟩, ?_, ?_, ?_, n, ?_, ?_, ?_, ?_⟩
          · simp [upload, updateCustomApp]
          · simp only [upload, countSigned, List.countP_cons]
            simp [updateCustomApp, hzeroS]
          · simp only [upload, countS3, List.countP_cons]
            simp [updateCustomApp, hzero3]
          · simp only [maxAttempts] at hn; omega
          · simpa using hok
          · intro m hm
            simpa using hpre m hm
          · simp only [upload, countPatch, List.countP_cons]
            simp only [countPatch] at hcnt
            simp [updateCustomApp, hcnt]

theorem upload_order_amended_witness :
    (upload (.ok su0) (.ok "s3ok") tenThenOk "/tmp/build.zip"
      "app-124").2 = .ok "updated" ∧
    (∃ su, StepResult.ok su0 = .ok su ∧
      (∃ r, StepResult.ok "s3ok" = .ok r) ∧
      (upload (.ok su0) (.ok "s3ok") tenThenOk "/tmp/build.zip"
        "app-124").1 =
        Event.signedUrlReq (lastSegment "/tmp/build.zip") ::
        Event.s3Post su.post_url ::
        (updateCustomApp tenThenOk "app-124" su.file_key 0).1 ∧
      countSigned (upload (.ok su0) (.ok "s3ok") tenThenOk
        "/tmp/build.zip" "app-124").1 = 1 ∧
      countS3 (upload (.ok su0) (.ok "s3ok") tenThenOk
        "/tmp/build.zip" "app-124").1 = 1 ∧
      ∃ n, n ≤ 10 ∧ tenThenOk n = .ok "updated" ∧
        (∀ m, m < n → ∃ e, tenThenOk m = .err e ∧ isTransient e = true) ∧
        countPatch (upload (.ok su0) (.ok "s3ok") tenThenOk
          "/tmp/build.zip" "app-124").1 = n + 1) :=
  ⟨by decide,
   upload_order_amended (.ok su0) (.ok "s3ok") tenThenOk "/tmp/build.zip"
     "app-124" "updated" (by decide)⟩

/-- C6: the publish workflow proceeds exactly when the branch is a
prerelease and `preRelease` is true, or the branch is not a prerelease
and `release` is true; every other flag combination returns immediately
as skipped, with an empty event trace (no network activity). -/
theorem publish_gating (baseUrl apiToken : Option String)
    (release preRelease isPrerelease : Bool) (appID assetPattern : String)
    (version : Option String) (globSync : String → List String)
    (signedRes : StepResult SignedUrl) (s3Res : StepResult String)
    (oracle : Nat → AttachResult) (script : List String)
    (patchRes : StepResult String) :
    ((publish baseUrl apiToken release preRelease isPrerelease appID
        assetPattern version globSync signedRes s3Res oracle script
        patchRes).2 = .skipped ↔
      ((isPrerelease && preRelease) || (!isPrerelease && release))
        = false) ∧
    (((isPrerelease && preRelease) || (!isPrerelease && release))
        = false →
      publish baseUrl apiToken release preRelease isPrerelease appID
        assetPattern version globSync signedRes s3Res oracle script
        patchRes = ([], .skipped)) := by
  have hskip : shouldSkip release preRelease isPrerelease =
      !((isPrerelease && preRelease) || (!isPrerelease && release)) := by
    cases release <;> cases preRelease <;> cases isPrerelease <;> rfl
  have hrun : shouldSkip release preRelease isPrerelease = false →
      (publish baseUrl apiToken release preRelease isPrerelease appID
        assetPattern version globSync signedRes s3Res oracle script
        patchRes).2 ≠ PubResult.skipped := by
    intro hs
    unfold publish
    rw [if_neg (by simp [hs])]
    cases mkKandjiClient baseUrl apiToken with
    | error e => simp
    | ok c =>
        cases resolveAsset assetPattern version globSync with
        | error e => simp
        | ok a =>
            simp only []
            cases (upload signedRes s3Res oracle a appID).2 with
            | ok d =>
                by_cases hl : script.length > 0
                · rw [if_pos hl]
                  cases patchRes <;> simp
                · rw [if_neg hl]
                  simp
            | signedUrlErr e => simp
            | s3Err e => simp
            | timeoutFail m => simp
            | apiFail e => simp
  constructor
  · constructor
    · intro h
      by_cases hg : ((isPrerelease && preRelease) ||
          (!isPrerelease && release)) = false
      · exact hg
      · have hg' : ((isPrerelease && preRelease) ||
            (!isPrerelease && release)) = true := by
          cases hb : ((isPrerelease && preRelease) ||
            (!isPrerelease && release)) with
          | false => exact absurd hb hg
          | true => rfl
        have hs : shouldSkip release preRelease isPrerelease = false := by
          rw [hskip, hg']
          rfl
        exact absurd h (hrun hs)
    · intro h
      have hs : shouldSkip release preRelease isPrerelease = true := by
        rw [hskip, h]
        rfl
      simp [publish, hs]
  · intro h
    have hs : shouldSkip release preRelease isPrerelease = true := by
      rw [hskip, h]
      rfl
    simp [publish, hs]

theorem publish_gating_witness :
    ((false && false) || (!false && false)) = false ∧
    publish (some "https://x") (some "t") false false false "7"
      "dist/a.zip" (some "1.0.0") (fun _ => ["dist/a.zip"])
      (.ok su0) (.ok "s3ok") tenThenOk [] (.ok "r") =
      ([], .skipped) :=
  ⟨by decide,
   (publish_gating (some "https://x") (some "t") false false false "7"
      "dist/a.zip" (some "1.0.0") (fun _ => ["dist/a.zip"])
      (.ok su0) (.ok "s3ok") tenThenOk [] (.ok "r")).2 (by decide)⟩

/-- C7: asset-pattern resolution returns the single matched path when
the processed glob pattern matches exactly one file, and fails with the
corresponding resolution error when it matches zero files or more than
one file; in the plugin flow a resolution failure produces an empty
event trace (no network call). -/
theorem resolveAsset_spec (assetPattern version : String)
    (globSync : String → List String) (f : String)
    (hv : (version == "") = false) :
    (globSync (replaceVersionPlaceholder assetPattern version) = [f] →
      resolveAsset assetPattern (some version) globSync = .ok f) ∧
    (globSync (replaceVersionPlaceholder assetPattern version) = [] →
      resolveAsset assetPattern (some version) globSync =
        .error ("No files found for pattern: " ++
          replaceVersionPlaceholder assetPattern version)) ∧
    (1 < (globSync (replaceVersionPlaceholder assetPattern
        version)).length →
      resolveAsset assetPattern (some version) globSync =
        .error ("Multiple files matched for pattern \"" ++
          replaceVersionPlaceholder assetPattern version ++
          "\", but only one asset is allowed.")) ∧
    (∀ err (baseUrl apiToken : Option String)
       (release preRelease isPrerelease : Bool) (appID : String)
       (signedRes : StepResult SignedUrl) (s3Res : StepResult String)
       (oracle : Nat → AttachResult) (script : List String)
       (patchRes : StepResult String),
      resolveAsset assetPattern (some version) globSync = .error err →
      (publish baseUrl apiToken release preRelease isPrerelease appID
        assetPattern (some version) globSync signedRes s3Res oracle
        script patchRes).1 = []) := by
  have hnf : jsFalsy (some version) = false := by
    simp [jsFalsy, hv]
  refine ⟨?_, ?_, ?_, ?_⟩
  · intro hm
    simp [resolveAsset, hnf, hm]
  · intro hm
    simp [resolveAsset, hnf, hm]
  · intro hm
    have h0 : (globSync (replaceVersionPlaceholder assetPattern
        version)).length ≠ 0 := by omega
    simp only [resolveAsset, hnf, Bool.false_eq_true, if_neg,
      not_false_iff, Option.getD_some]
    rw [if_neg (by simpa using h0), if_pos hm]
  · intro err baseUrl apiToken release preRelease isPrerelease appID
      signedRes s3Res oracle script patchRes herr
    by_cases hs : shouldSkip release preRelease isPrerelease
    · simp [publish, hs]
    · unfold publish
      rw [if_neg (by simp [hs])]
      cases mkKandjiClient baseUrl apiToken with
      | error e => simp
      | ok c => simp [herr]

theorem resolveAsset_spec_witness :
    (("1.2.3" == "") = false ∧
      (fun _ : String => ["dist/app-1.2.3.zip"])
        (replaceVersionPlaceholder "dist/app-$\x7bnextRelease.version\x7d.zip"
          "1.2.3") = ["dist/app-1.2.3.zip"]) ∧
    resolveAsset "dist/app-$\x7bnextRelease.version\x7d.zip" (some "1.2.3")
      (fun _ => ["dist/app-1.2.3.zip"]) = .ok "dist/app-1.2.3.zip" :=
  ⟨⟨by decide, rfl⟩,
   (resolveAsset_spec "dist/app-$\x7bnextRelease.version\x7d.zip" "1.2.3"
      (fun _ => ["dist/app-1.2.3.zip"]) "dist/app-1.2.3.zip"
      (by decide)).1 rfl⟩

/-- `upload` never records a `postinstall_script` PATCH event. -/
theorem upload_no_script (signedRes : StepResult SignedUrl)
    (s3Res : StepResult String) (oracle : Nat → AttachResult)
    (filepath appId : String) :
    countScriptEv (upload signedRes s3Res oracle filepath appId).1 = 0 := by
  cases signedRes with
  | err e => rfl
  | ok su =>
      cases s3Res with
      | err e => rfl
      | ok r =>
          have hz := updateRun_no_script oracle appId su.file_key
            (maxAttempts + 1) 0
          simp only [countScriptEv] at hz ⊢
          simp [upload, updateCustomApp, List.countP_cons, hz]

/-- C8: in the release-plugin path, after a successful upload with a
non-empty post-install script, the script lines are joined with newline
separators and patched via exactly one additional `patchScript` call
appended after the upload's events; a failure of that patch is surfaced
as the publish outcome while the already-recorded attach events are
unchanged (the attach is not undone). -/
theorem publish_postinstall (baseUrl apiToken : Option String)
    (release preRelease isPrerelease : Bool)
    (appID assetPattern : String) (version : Option String)
    (globSync : String → List String) (signedRes : StepResult SignedUrl)
    (s3Res : StepResult String) (oracle : Nat → AttachResult)
    (script : List String) (patchRes : StepResult String)
    (a d : String) (c : KandjiClient)
    (hgate : shouldSkip release preRelease isPrerelease = false)
    (hmk : mkKandjiClient baseUrl apiToken = .ok c)
    (hasset : resolveAsset assetPattern version globSync = .ok a)
    (hup : (upload signedRes s3Res oracle a appID).2 = .ok d)
    (hscript : script.length > 0) :
    (publish baseUrl apiToken release preRelease isPrerelease appID
        assetPattern version globSync signedRes s3Res oracle script
        patchRes).1 =
      (upload signedRes s3Res oracle a appID).1 ++
        [Event.patchScript ("/api/v1/library/custom-apps/" ++ appID)
          (String.intercalate "\n" script)] ∧
    countScriptEv (publish baseUrl apiToken release preRelease
        isPrerelease appID assetPattern version globSync signedRes s3Res
        oracle script patchRes).1 = 1 ∧
    (∀ e, patchRes = .err e →
      (publish baseUrl apiToken release preRelease isPrerelease appID
        assetPattern version globSync signedRes s3Res oracle script
        patchRes).2 = .scriptPatchErr e ∧
      countPatch (publish baseUrl apiToken release preRelease
        isPrerelease appID assetPattern version globSync signedRes s3Res
        oracle script patchRes).1 =
        countPatch (upload signedRes s3Res oracle a appID).1) ∧
    (∀ r, patchRes = .ok r →
      (publish baseUrl apiToken release preRelease isPrerelease appID
        assetPattern version globSync signedRes s3Res oracle script
        patchRes).2 = .ok) := by
  have htr : (publish baseUrl apiToken release preRelease isPrerelease
      appID assetPattern version globSync signedRes s3Res oracle script
      patchRes).1 =
      (upload signedRes s3Res oracle a appID).1 ++
        [Event.patchScript ("/api/v1/library/custom-apps/" ++ appID)
          (String.intercalate "\n" script)] := by
    unfold publish
    rw [if_neg (by simp [hgate]), hmk, hasset]
    simp only [hup]
    rw [if_pos hscript]
    cases patchRes <;> rfl
  refine ⟨htr, ?_, ?_, ?_⟩
  · rw [htr]
    simp only [countScriptEv, List.countP_append]
    have hz := upload_no_script signedRes s3Res oracle a appID
    simp only [countScriptEv] at hz
    simp [hz]
  · intro e hpr
    subst hpr
    constructor
    · unfold publish
      rw [if_neg (by simp [hgate]), hmk, hasset]
      simp only [hup]
      rw [if_pos hscript]
    · rw [htr]
      simp [countPatch, List.countP_append]
  · intro r hpr
    subst hpr
    unfold publish
    rw [if_neg (by simp [hgate]), hmk, hasset]
    simp only [hup]
    rw [if_pos hscript]

theorem publish_postinstall_witness :
    (shouldSkip true false false = false ∧
     mkKandjiClient (some "https://x") (some "t") =
       .ok ⟨"https://x", "t"⟩ ∧
     resolveAsset "dist/b.zip" (some "1.0.0")
       (fun _ => ["dist/b.zip"]) = .ok "dist/b.zip" ∧
     (upload (.ok su0) (.ok "s3ok") tenThenOk "dist/b.zip" "77").2 =
       .ok "updated" ∧
     (["#!/bin/zsh", "echo done"] : List String).length > 0) ∧
    (publish (some "https://x") (some "t") true false false "77"
        "dist/b.zip" (some "1.0.0") (fun _ => ["dist/b.zip"])
        (.ok su0) (.ok "s3ok") tenThenOk ["#!/bin/zsh", "echo done"]
        (.err "boom")).2 = .scriptPatchErr "boom" ∧
    countScriptEv (publish (some "https://x") (some "t") true false
        false "77" "dist/b.zip" (some "1.0.0") (fun _ => ["dist/b.zip"])
        (.ok su0) (.ok "s3ok") tenThenOk ["#!/bin/zsh", "echo done"]
        (.err "boom")).1 = 1 :=
  ⟨⟨by decide, rfl, rfl, by decide, by decide⟩,
   ((publish_postinstall (some "https://x") (some "t") true false false
      "77" "dist/b.zip" (some "1.0.0") (fun _ => ["dist/b.zip"])
      (.ok su0) (.ok "s3ok") tenThenOk ["#!/bin/zsh", "echo done"]
      (.err "boom") "dist/b.zip" "updated" ⟨"https://x", "t"⟩
      (by decide) rfl rfl (by decide) (by decide)).2.2.1
      "boom" rfl).1,
   (publish_postinstall (some "https://x") (some "t") true false false
      "77" "dist/b.zip" (some "1.0.0") (fun _ => ["dist/b.zip"])
      (.ok su0) (.ok "s3ok") tenThenOk ["#!/bin/zsh", "echo done"]
      (.err "boom") "dist/b.zip" "updated" ⟨"https://x", "t"⟩
      (by decide) rfl rfl (by decide) (by decide)).2.1⟩

end Kandji
